import Mathlib

/-!
Shallow embedding of `src/ChatBot_AWS_backend.py`, a single-file Flask backend:
environment validation (lines 12-21), the fixed persona string `chatbot_context`
(lines 38-72), the Kendra search wrapper `kendra_search` (lines 75-97), the
completion wrapper `generate_combined_response` (lines 100-136) with the global
mutable `conversation_history` (line 35), and the `/chat` route (lines 143-156).

External effects are modelled with explicit oracles: the Kendra call is an
`Except String KendraResponse` (the `error` case is a raised exception), the
OpenAI call is a function from the assembled message list to
`Except String String`.  Mutation of the global `conversation_history` is
modelled by explicit state passing: every function that touches it takes the
current list and returns the new one.
-/

namespace ChatBotBackend

/-- Role tag of a chat message, as used in the OpenAI message dictionaries. -/
inductive Role
  | system
  | user
  | assistant
deriving DecidableEq

/-- One OpenAI-style message dictionary with a role and a content string. -/
structure Message where
  role : Role
  content : String
deriving DecidableEq

/-- One parsed Kendra result (lines 90-93): document excerpt text and image link. -/
structure SearchResult where
  content : String
  image_link : String
deriving DecidableEq

/-- One raw Kendra result item: the optional `DocumentExcerpt.Text` field and the
list of `DocumentAttributes`, each reduced to its optional
`Value.TextWithLinksValue` field, the only parts the source reads (lines 84-89). -/
structure KendraItem where
  documentExcerptText : Option String
  documentAttributes : List (Option String)
deriving DecidableEq

/-- A raw Kendra query response: the `ResultItems` list (line 84). -/
structure KendraResponse where
  resultItems : List KendraItem
deriving DecidableEq

/-- The six environment variables read at lines 12-17. `none` is an unset
variable; `some ""` is set but empty (falsy in Python). -/
structure Env where
  kendra_index_id : Option String
  aws_region : Option String
  role_arn : Option String
  openai_api_key : Option String
  aws_access_key_id : Option String
  aws_secret_access_key : Option String
deriving DecidableEq

/-- Python truthiness of an optional string: `None` and `""` are falsy. -/
def truthy : Option String → Bool
  | none => false
  | some s => !(s == "")

/-- Line 20: startup raises `EnvironmentError` unless all six variables are
truthy - the two AWS credential variables included. -/
def startupAborts (e : Env) : Bool :=
  !(truthy e.kendra_index_id && truthy e.aws_region && truthy e.role_arn &&
    truthy e.openai_api_key && truthy e.aws_access_key_id &&
    truthy e.aws_secret_access_key)

/-- The fixed persona string `chatbot_context` (lines 38-72), byte for byte.
The source file stores the price as the three characters U+00E2 U+201A U+00B9
(a double-encoded rupee sign), written here with escapes. -/
def chatbot_context : String :=
  "\nYou are a real estate chatbot working for RightHome AI. Your goal is to assist users in finding properties by providing accurate, real-time information in a simple, clear, and structured format.\n\nResponse Guidelines:\n1. Provide property details using the following structure:\n   - Property Name\n   - Price\n   - Location\n   - Area\n   - Features\n   - Highlights\n   - Image: [Image description](Image URL)\n\n2. Format Specifications:\n   - Avoid using special symbols or characters such as *, +, or ().\n   - Maintain a plain text format for all outputs.\n\n3. If no matching properties are found, acknowledge politely and suggest alternatives or ways to assist further.\n\n4. Example of the desired format:\n   Property 1: Green Valley Apartments\n   Price: â‚¹50 Lakhs\n   Location: Jabalpur City Center\n   Area: 1500 sq ft\n   Features: 3 BHK, Garden view, Parking space\n   Highlights: Near schools, hospitals, and markets\n   Image: [Green Valley Apartments](https://example.com/green-valley-image)\n\n5. User Queries:\n   - Respond accurately to property-related queries.\n   - Redirect irrelevant or off-topic conversations back to property-related topics.\n\n6. Image Links:\n   - Ensure every property includes an image link where applicable. If no image is available, acknowledge this by stating: \"No image available for this property.\"\n"

/-- Header added before the property blocks when search results exist (line 106). -/
def matchHeader : String :=
  "Here are some relevant property matches based on the query:\n"

/-- Paragraph added when the search result list is empty (line 113). -/
def fallbackText : String :=
  "\nUnfortunately, no matching properties were found. Let me assist you further with tailored suggestions.\n"

/-- The apology returned when the completion block raises (line 136). -/
def apology : String :=
  "I'm sorry, I couldn't process your request at the moment."

/-- Parsing of one Kendra result item (lines 85-93): excerpt text with default
`""`; image link from the first document attribute when the attribute list is
non-empty, with default `"No image available"`. -/
def parseItem (it : KendraItem) : SearchResult :=
  { content := it.documentExcerptText.getD ""
    image_link :=
      match it.documentAttributes with
      | [] => "No image available"
      | a :: _ => a.getD "No image available" }

/-- The result-collecting loop of `kendra_search` (lines 83-94). -/
def kendraSearchBody (r : KendraResponse) : List SearchResult :=
  r.resultItems.map parseItem

/-- `kendra_search` (lines 75-97): on a successful Kendra call it parses the
result items; `except Exception` (lines 95-97) turns any raised exception into
the empty list, so the wrapper is total and never propagates an exception. -/
def kendra_search (raw : Except String KendraResponse) : List SearchResult :=
  match raw with
  | .ok r => kendraSearchBody r
  | .error _ => []

/-- One numbered property block of the loop body (lines 108-111). -/
def propertyBlock (idx : Nat) (r : SearchResult) : String :=
  "\nProperty " ++ toString idx ++ ": " ++ r.content ++ "\n" ++
    "Image: " ++ r.image_link ++ "\n"

/-- Context assembly of `generate_combined_response` (lines 104-113): start from
`chatbot_context`; if the search result list is non-empty (Python truthiness of
a list), add the header and then one numbered block per result via the
`enumerate(search_results, 1)` loop, modelled as a left fold over the list
paired with indices from 1; otherwise add the fallback paragraph. -/
def buildContext (searchResults : List SearchResult) : String :=
  if searchResults.isEmpty then
    chatbot_context ++ fallbackText
  else
    (List.enumFrom 1 searchResults).foldl
      (fun ctx p => ctx ++ propertyBlock p.1 p.2)
      (chatbot_context ++ matchHeader)

/-- The message list sent to OpenAI (lines 116-118): the system message holding
the assembled context, then the whole global conversation history, then the new
user message. -/
def assembleMessages (searchResults : List SearchResult) (hist : List Message)
    (q : String) : List Message :=
  Message.mk .system (buildContext searchResults) ::
    (hist ++ [Message.mk .user q])

/-- Result of `generate_combined_response`: the returned reply string and the
new value of the global `conversation_history`. -/
structure GenResult where
  reply : String
  hist : List Message
deriving DecidableEq

/-- `generate_combined_response` (lines 100-136), with the OpenAI call as an
oracle from the assembled messages to `Except`.  On success the reply is
returned and the two appends of lines 129-130 extend the history; `except
Exception` (lines 134-136) returns the apology and, because the appends sit
after the completion call inside the `try`, leaves the history unchanged. -/
def generate_combined_response (q : String) (searchResults : List SearchResult)
    (hist : List Message) (compl : List Message → Except String String) :
    GenResult :=
  match compl (assembleMessages searchResults hist q) with
  | .ok resp =>
      { reply := resp
        hist := hist ++ [Message.mk .user q, Message.mk .assistant resp] }
  | .error _ => { reply := apology, hist := hist }

/-- JSON body of a `/chat` response: either a reply field or an error field. -/
inductive ChatBody
  | reply (s : String)
  | error (s : String)
deriving DecidableEq

/-- Observable outcome of one `/chat` request: HTTP status, JSON body, the
global history after the request, and how many times each external service
was invoked during the request. -/
structure ChatOutcome where
  status : Nat
  body : ChatBody
  hist : List Message
  searchCalls : Nat
  complCalls : Nat
deriving DecidableEq

/-- A `/chat` request body: the optional `message` field the handler reads
(line 146) and the `session_id` field of the documented HTTP surface, which
the handler never reads. -/
structure ChatRequest where
  message : Option String
  session_id : Option String
deriving DecidableEq

/-- The `/chat` route handler (lines 143-156).  `data.get("message")` is the
optional field; `if not user_message` is true for an absent field and for the
empty string, returning 400 before any external call.  Otherwise the handler
runs `kendra_search` then `generate_combined_response`, both of which are total
(each swallows its exceptions internally), so the `except` branch of lines
155-156 returning 500 is unreachable from those two calls and the handler
answers 200 with the reply. -/
def chat (req : ChatRequest) (hist : List Message)
    (searchRaw : Except String KendraResponse)
    (compl : List Message → Except String String) : ChatOutcome :=
  match req.message with
  | none =>
      { status := 400, body := .error "Message is required", hist := hist
        searchCalls := 0, complCalls := 0 }
  | some m =>
      if m = "" then
        { status := 400, body := .error "Message is required", hist := hist
          searchCalls := 0, complCalls := 0 }
      else
        let searchResults := kendra_search searchRaw
        let g := generate_combined_response m searchResults hist compl
        { status := 200, body := .reply g.reply, hist := g.hist
          searchCalls := 1, complCalls := 1 }

/-- Reading a session's turns.  The source keeps a single global
`conversation_history` (line 35) with no per-session keying and the handler
never reads `session_id`, so a read under any identifier yields the one global
list. -/
def get_turns (_sid : String) (hist : List Message) : List Message := hist

/-- Pair the stored flat message list back into (user text, reply text) turns. -/
def turnsOf : List Message → List (String × String)
  | [] => []
  | [_] => []
  | a :: b :: rest => (a.content, b.content) :: turnsOf rest

/-- Run a sequence of `/chat` requests in order, each with a successful search
returning no items and a successful completion returning the given reply,
threading the global history through. -/
def runChats : List (String × String) → List Message → List Message
  | [], h => h
  | (q, r) :: rest, h =>
      runChats rest
        (chat (ChatRequest.mk (some q) none) h (.ok (KendraResponse.mk []))
          (fun _ => .ok r)).hist

/-- Whether the character list `pat` occurs at the head of `s`. -/
def matchesAt : List Char → List Char → Bool
  | [], _ => true
  | _ :: _, [] => false
  | p :: ps, c :: cs => p == c && matchesAt ps cs

/-- Whether the character list `pat` occurs anywhere in `s`. -/
def subLoop (pat : List Char) : List Char → Bool
  | [] => matchesAt pat []
  | c :: cs => matchesAt pat (c :: cs) || subLoop pat cs

/-- Substring test used to state the containment claims. -/
def hasSubstr (s pat : String) : Bool := subLoop pat.data s.data

/-- Concatenation of a list of strings in order. -/
def concatAll : List String → String
  | [] => ""
  | s :: rest => s ++ concatAll rest

/-- The flat message list that storing a list of (user text, reply text) turns
produces: two appends per turn, user message first (lines 129-130). -/
def messagesOfTurns : List (String × String) → List Message
  | [] => []
  | (q, r) :: rest =>
      Message.mk .user q :: Message.mk .assistant r :: messagesOfTurns rest

/-- Eleven concrete (query, reply) turns. -/
def elevenTurns : List (String × String) :=
  [("q1", "r1"), ("q2", "r2"), ("q3", "r3"), ("q4", "r4"), ("q5", "r5"),
   ("q6", "r6"), ("q7", "r7"), ("q8", "r8"), ("q9", "r9"), ("q10", "r10"),
   ("q11", "r11")]

/-- The prompt assembly the spec's words describe for `build_prompt`, written
from the spec for comparison with `buildContext`: the persona template first;
then, when the prior-turn list is non-empty, each prior turn as a numbered
"User: ...\nBot: ..." line in chronological order; then, when the snippet list
is non-empty, each snippet as a numbered property block, and otherwise the
fallback suggestion paragraph. -/
def specBuildPrompt (persona : String) (snippets : List SearchResult)
    (priorTurns : List (String × String)) : String :=
  let withHist := persona ++
    String.join ((List.enumFrom 1 priorTurns).map
      (fun p => toString p.1 ++ ". User: " ++ p.2.1 ++ "\nBot: " ++ p.2.2 ++ "\n"))
  if snippets.isEmpty then
    withHist ++ fallbackText
  else
    withHist ++
      String.join ((List.enumFrom 1 snippets).map (fun p => propertyBlock p.1 p.2))

/-- The `+=` loop over `enumerate(search_results, 1)` equals the concatenation
of the individual property blocks appended after the accumulator. -/
theorem foldl_propertyBlock (l : List (Nat × SearchResult)) :
    ∀ init : String,
      l.foldl (fun ctx p => ctx ++ propertyBlock p.1 p.2) init =
        init ++ concatAll (l.map fun p => propertyBlock p.1 p.2) := by
  induction l with
  | nil => intro init; simp [concatAll]
  | cons p rest ih =>
      intro init
      simp only [List.foldl_cons, List.map_cons, concatAll]
      rw [ih (init ++ propertyBlock p.1 p.2), String.append_assoc]

/-- Pairing the flat storage of a turn list recovers the turn list. -/
theorem turnsOf_messagesOfTurns :
    ∀ ps : List (String × String), turnsOf (messagesOfTurns ps) = ps
  | [] => rfl
  | (q, r) :: rest => by
      simp [messagesOfTurns, turnsOf, turnsOf_messagesOfTurns rest]

/-- Running a sequence of successful `/chat` requests with non-empty messages
appends every turn, in order, to whatever history was already stored. -/
theorem runChats_append (pairs : List (String × String)) :
    (∀ p ∈ pairs, p.1 ≠ "") → ∀ h0 : List Message,
      runChats pairs h0 = h0 ++ messagesOfTurns pairs := by
  induction pairs with
  | nil => intro _ h0; simp [runChats, messagesOfTurns]
  | cons p rest ih =>
      intro hps h0
      obtain ⟨q, r⟩ := p
      have hq : q ≠ "" := hps (q, r) (List.mem_cons_self _ _)
      have hrest : ∀ x ∈ rest, x.1 ≠ "" := fun x hx => hps x (List.mem_cons_of_mem _ hx)
      simp only [runChats]
      rw [ih hrest]
      simp [chat, hq, generate_combined_response, messagesOfTurns]

/-- Claim C1 counterexample: starting from an empty history, eleven successful
`/chat` appends leave eleven stored turns, not ten - the source never truncates
`conversation_history` - and a read returns all eleven, not the last ten. -/
theorem C1_counterexample :
    (turnsOf (get_turns "s" (runChats elevenTurns []))).length = 11 ∧
    ¬ (turnsOf (get_turns "s" (runChats elevenTurns []))).length ≤ 10 ∧
    turnsOf (get_turns "s" (runChats elevenTurns [])) = elevenTurns := by
  refine ⟨by decide, by decide, by decide⟩

/-- Claim C1 (amended): the history is one global uncapped list; a sequence of
successful appends with non-empty messages stores every appended turn after the
prior history, and a read from the empty start returns all appended turns
oldest-first - there is no ten-entry cap. -/
theorem C1_amended_no_cap (pairs : List (String × String)) (h0 : List Message)
    (hq : ∀ p ∈ pairs, p.1 ≠ "") :
    runChats pairs h0 = h0 ++ messagesOfTurns pairs ∧
    turnsOf (runChats pairs []) = pairs := by
  refine ⟨runChats_append pairs hq h0, ?_⟩
  rw [runChats_append pairs hq []]
  simp [turnsOf_messagesOfTurns]

/-- Claim C1 witness: the amended statement at the eleven concrete turns. -/
theorem C1_witness :
    runChats elevenTurns [Message.mk .user "x"] =
      [Message.mk .user "x"] ++ messagesOfTurns elevenTurns ∧
    turnsOf (runChats elevenTurns []) = elevenTurns :=
  C1_amended_no_cap elevenTurns [Message.mk .user "x"] (by decide)

/-- Claim C2 counterexample: one append under session identifier "a" changes
what a read under the distinct identifier "b" returns, because the source keeps
a single global history and ignores `session_id`. -/
theorem C2_counterexample :
    get_turns "b" ((chat (ChatRequest.mk (some "hi") (some "a")) []
        (.ok (KendraResponse.mk [])) (fun _ => .ok "yo")).hist) ≠
      get_turns "b" [] := by
  decide

/-- Claim C2 (amended): a successful append under any session identifier is
observed under every identifier - all identifiers share the one global
sequence, so distinct sessions do cross-contaminate. -/
theorem C2_amended_shared_history (sid1 sid2 m r : String) (hist : List Message)
    (sr : Except String KendraResponse) (hm : m ≠ "") :
    get_turns sid2 ((chat (ChatRequest.mk (some m) (some sid1)) hist sr
        (fun _ => .ok r)).hist) =
      get_turns sid2 hist ++ [Message.mk .user m, Message.mk .assistant r] := by
  simp [get_turns, chat, hm, generate_combined_response]

/-- Claim C2 witness: the amended statement at identifiers "a" and "b". -/
theorem C2_witness :
    get_turns "b" ((chat (ChatRequest.mk (some "hi") (some "a")) []
        (.ok (KendraResponse.mk [])) (fun _ => .ok "yo")).hist) =
      get_turns "b" [] ++ [Message.mk .user "hi", Message.mk .assistant "yo"] :=
  C2_amended_shared_history "a" "b" "hi" "yo" [] (.ok (KendraResponse.mk []))
    (by decide)

/-- Claim C3 counterexample: when the completion call raises, the response has
status 200 with a reply field holding the apology - not status 500 with an
error field - because `generate_combined_response` catches the exception before
the handler's `except` can see it. -/
theorem C3_counterexample :
    (chat (ChatRequest.mk (some "hi") none) [] (.ok (KendraResponse.mk []))
        (fun _ => .error "boom")).status = 200 ∧
    (chat (ChatRequest.mk (some "hi") none) [] (.ok (KendraResponse.mk []))
        (fun _ => .error "boom")).body = ChatBody.reply apology := by
  refine ⟨by decide, by decide⟩

/-- Claim C3 (amended): when the completion call raises, the response has
status 200 with a reply field holding the fixed apology text, both external
services were invoked once, and the stored history is unchanged. -/
theorem C3_amended_completion_failure (m : String) (sid : Option String)
    (hist : List Message) (sr : Except String KendraResponse)
    (compl : List Message → Except String String) (e : String) (hm : m ≠ "")
    (hc : compl (assembleMessages (kendra_search sr) hist m) = Except.error e) :
    chat (ChatRequest.mk (some m) sid) hist sr compl =
      ChatOutcome.mk 200 (.reply apology) hist 1 1 := by
  simp [chat, hm, generate_combined_response, hc]

/-- Claim C3 witness: the amended statement at a concrete failing completion. -/
theorem C3_witness :
    chat (ChatRequest.mk (some "hi") none) [] (.ok (KendraResponse.mk []))
        (fun _ => .error "boom") =
      ChatOutcome.mk 200 (.reply apology) [] 1 1 :=
  C3_amended_completion_failure "hi" none [] (.ok (KendraResponse.mk []))
    (fun _ => .error "boom") "boom" (by decide) rfl

/-- Claim C4 counterexample: when the search call raises, the handler does not
return 500 with an error field; the wrapper swallows the exception, returns no
results, and the request succeeds with status 200 and a reply field. -/
theorem C4_counterexample :
    (chat (ChatRequest.mk (some "hi") none) [] (.error "kendra down")
        (fun _ => .ok "resp")).status = 200 ∧
    (chat (ChatRequest.mk (some "hi") none) [] (.error "kendra down")
        (fun _ => .ok "resp")).body = ChatBody.reply "resp" := by
  refine ⟨by decide, by decide⟩

/-- Claim C4 (amended): a raised search call is converted inside the wrapper to
the empty result list, never to an error response: the request proceeds with
the fallback context and, when the completion succeeds, answers 200 with the
reply and stores the new turn. -/
theorem C4_amended_search_failure (m : String) (sid : Option String)
    (hist : List Message) (er : String)
    (compl : List Message → Except String String) (r : String) (hm : m ≠ "")
    (hc : compl (assembleMessages [] hist m) = Except.ok r) :
    kendra_search (Except.error er) = [] ∧
    chat (ChatRequest.mk (some m) sid) hist (Except.error er) compl =
      ChatOutcome.mk 200 (.reply r)
        (hist ++ [Message.mk .user m, Message.mk .assistant r]) 1 1 := by
  refine ⟨rfl, ?_⟩
  simp [chat, hm, generate_combined_response, kendra_search, hc]

/-- Claim C4 witness: the amended statement at a concrete failing search. -/
theorem C4_witness :
    kendra_search (Except.error "kendra down") = [] ∧
    chat (ChatRequest.mk (some "hi") none) [] (Except.error "kendra down")
        (fun _ => .ok "resp") =
      ChatOutcome.mk 200 (.reply "resp")
        ([] ++ [Message.mk .user "hi", Message.mk .assistant "resp"]) 1 1 :=
  C4_amended_search_failure "hi" none [] "kendra down" (fun _ => .ok "resp")
    "resp" (by decide) rfl

/-- Claim C5: a request with no message field, or with an empty message (both
falsy under `if not user_message`), answers 400 with the error body, leaves the
history unchanged, and performs zero search calls and zero completion calls. -/
theorem C5_missing_message (sid : Option String) (hist : List Message)
    (sr : Except String KendraResponse)
    (compl : List Message → Except String String) :
    chat (ChatRequest.mk none sid) hist sr compl =
      ChatOutcome.mk 400 (.error "Message is required") hist 0 0 ∧
    chat (ChatRequest.mk (some "") sid) hist sr compl =
      ChatOutcome.mk 400 (.error "Message is required") hist 0 0 := by
  refine ⟨rfl, rfl⟩

/-- Claim C5 witness: the statement at a concrete request and oracles. -/
theorem C5_witness :
    chat (ChatRequest.mk none none) [] (.ok (KendraResponse.mk []))
        (fun _ => .ok "r") =
      ChatOutcome.mk 400 (.error "Message is required") [] 0 0 ∧
    chat (ChatRequest.mk (some "") none) [] (.ok (KendraResponse.mk []))
        (fun _ => .ok "r") =
      ChatOutcome.mk 400 (.error "Message is required") [] 0 0 :=
  C5_missing_message none [] (.ok (KendraResponse.mk [])) (fun _ => .ok "r")

set_option maxRecDepth 40000 in
/-- Claim C6 counterexample: with no snippets and one prior turn, the prompt
the spec describes embeds the turn text as a "User: ..." line, but the prompt
the source assembles never mentions the prior turns at all - the two differ. -/
theorem C6_counterexample :
    hasSubstr (specBuildPrompt chatbot_context [] [("xyzzy", "ok")]) "xyzzy" = true ∧
    hasSubstr (buildContext []) "xyzzy" = false ∧
    buildContext [] ≠ specBuildPrompt chatbot_context [] [("xyzzy", "ok")] := by
  have h1 : hasSubstr (specBuildPrompt chatbot_context [] [("xyzzy", "ok")])
      "xyzzy" = true := by decide
  have h2 : hasSubstr (buildContext []) "xyzzy" = false := by decide
  refine ⟨h1, h2, fun h => ?_⟩
  rw [h, h1] at h2
  exact Bool.noConfusion h2

/-- Claim C6 (amended): the assembled system prompt is the persona template
followed by the match header and the concatenated numbered property blocks when
snippets exist, and by the fallback paragraph otherwise; prior turns are not
rendered into the prompt text but passed as separate role-tagged messages
between the system message and the new user message. -/
theorem C6_amended_prompt_structure (snippets : List SearchResult)
    (hist : List Message) (q : String) :
    assembleMessages snippets hist q =
      Message.mk .system (buildContext snippets) ::
        (hist ++ [Message.mk .user q]) ∧
    buildContext snippets =
      (if snippets.isEmpty then chatbot_context ++ fallbackText
       else chatbot_context ++ matchHeader ++
         concatAll ((List.enumFrom 1 snippets).map fun p => propertyBlock p.1 p.2)) := by
  refine ⟨rfl, ?_⟩
  cases snippets with
  | nil => simp [buildContext]
  | cons s rest =>
      simp only [buildContext, List.isEmpty_cons, if_false, Bool.false_eq_true]
      rw [foldl_propertyBlock, String.append_assoc]

/-- Claim C7: with a non-empty snippet list the prompt is the persona, the
match header, then exactly one numbered property block per snippet concatenated
in input order; the block list has the snippets' length and the block numbers
are 1 through N in order. -/
theorem C7_numbered_blocks (snippets : List SearchResult) (hne : snippets ≠ []) :
    buildContext snippets =
      chatbot_context ++ matchHeader ++
        concatAll ((List.enumFrom 1 snippets).map fun p => propertyBlock p.1 p.2) ∧
    ((List.enumFrom 1 snippets).map fun p => propertyBlock p.1 p.2).length =
      snippets.length ∧
    (List.enumFrom 1 snippets).map Prod.fst = List.range' 1 snippets.length := by
  refine ⟨?_, by simp, by simp⟩
  cases snippets with
  | nil => exact absurd rfl hne
  | cons s rest =>
      simp only [buildContext, List.isEmpty_cons, if_false, Bool.false_eq_true]
      rw [foldl_propertyBlock, String.append_assoc]

/-- Claim C7 witness: the statement at a concrete two-snippet list. -/
theorem C7_witness :
    buildContext [SearchResult.mk "c1" "i1", SearchResult.mk "c2" "i2"] =
      chatbot_context ++ matchHeader ++
        concatAll ((List.enumFrom 1
            [SearchResult.mk "c1" "i1", SearchResult.mk "c2" "i2"]).map
          fun p => propertyBlock p.1 p.2) ∧
    ((List.enumFrom 1 [SearchResult.mk "c1" "i1", SearchResult.mk "c2" "i2"]).map
      fun p => propertyBlock p.1 p.2).length =
      [SearchResult.mk "c1" "i1", SearchResult.mk "c2" "i2"].length ∧
    (List.enumFrom 1 [SearchResult.mk "c1" "i1", SearchResult.mk "c2" "i2"]).map
      Prod.fst =
      List.range' 1 [SearchResult.mk "c1" "i1", SearchResult.mk "c2" "i2"].length :=
  C7_numbered_blocks [SearchResult.mk "c1" "i1", SearchResult.mk "c2" "i2"]
    (by decide)

set_option maxRecDepth 40000 in
/-- Claim C8: with no snippets (and the history playing no part in the prompt
text) the assembled prompt contains the fallback suggestion paragraph, no
occurrence of the text "Match", and no numbered property heading - no
occurrence of the block-opening text "\nProperty ". -/
theorem C8_fallback_only :
    hasSubstr (buildContext []) fallbackText = true ∧
    hasSubstr (buildContext []) "Match" = false ∧
    hasSubstr (buildContext []) "\nProperty " = false := by
  refine ⟨by decide, by decide, by decide⟩

/-- Claim C9 counterexample: an environment with all four values the spec calls
required present but the two AWS credential values unset still aborts startup,
because line 20 checks all six variables. -/
theorem C9_counterexample :
    startupAborts (Env.mk (some "idx") (some "us-east-1") (some "arn")
      (some "sk-key") none none) = true ∧
    (truthy (some "idx") && truthy (some "us-east-1") && truthy (some "arn") &&
      truthy (some "sk-key")) = true := by
  refine ⟨by decide, by decide⟩

/-- Claim C9 (amended): startup aborts exactly when any of the six environment
values is unset or empty - the two explicit AWS credentials are required just
like the other four, not optional. -/
theorem C9_amended_all_six_required (e : Env) :
    startupAborts e = false ↔
      (truthy e.kendra_index_id = true ∧ truthy e.aws_region = true ∧
       truthy e.role_arn = true ∧ truthy e.openai_api_key = true ∧
       truthy e.aws_access_key_id = true ∧
       truthy e.aws_secret_access_key = true) := by
  simp [startupAborts, and_assoc]

/-- Claim C9 witness: the amended statement at a concrete environment. -/
theorem C9_witness :
    startupAborts (Env.mk (some "idx") (some "us-east-1") (some "arn")
        (some "sk-key") (some "ak") (some "sec")) = false ↔
      (truthy (Env.mk (some "idx") (some "us-east-1") (some "arn")
          (some "sk-key") (some "ak") (some "sec")).kendra_index_id = true ∧
       truthy (Env.mk (some "idx") (some "us-east-1") (some "arn")
          (some "sk-key") (some "ak") (some "sec")).aws_region = true ∧
       truthy (Env.mk (some "idx") (some "us-east-1") (some "arn")
          (some "sk-key") (some "ak") (some "sec")).role_arn = true ∧
       truthy (Env.mk (some "idx") (some "us-east-1") (some "arn")
          (some "sk-key") (some "ak") (some "sec")).openai_api_key = true ∧
       truthy (Env.mk (some "idx") (some "us-east-1") (some "arn")
          (some "sk-key") (some "ak") (some "sec")).aws_access_key_id = true ∧
       truthy (Env.mk (some "idx") (some "us-east-1") (some "arn")
          (some "sk-key") (some "ak") (some "sec")).aws_secret_access_key = true) :=
  C9_amended_all_six_required (Env.mk (some "idx") (some "us-east-1")
    (some "arn") (some "sk-key") (some "ak") (some "sec"))

/-- Claim C10: the search wrapper is a total function - it never propagates an
exception to the handler - and a raised search call yields the empty result
list, the same value a successful search with zero result items yields. -/
theorem C10_search_failure_swallowed (e : String) :
    kendra_search (Except.error e) = [] ∧
    kendra_search (Except.error e) =
      kendra_search (Except.ok (KendraResponse.mk [])) :=
  ⟨rfl, rfl⟩

/-- Claim C10 witness: the statement at a concrete exception message. -/
theorem C10_witness :
    kendra_search (Except.error "connection reset") = [] ∧
    kendra_search (Except.error "connection reset") =
      kendra_search (Except.ok (KendraResponse.mk [])) :=
  C10_search_failure_swallowed "connection reset"

end ChatBotBackend
